import Mathlib

/-!
Shallow embedding of the chunked-transcription core of OpenSuperWhisper:
the retry scheduler (`retry_manager.py`), the chunk pipeline
(`chunk_processor.py`), the audio segmenter (`realtime_recorder.py`) and the
cancellation controller (`cancel_handler.py`), together with theorems checking
the specification's claims about them.

Conventions of the embedding:
* Python floats (times, delays, audio samples) are modelled as exact
  rationals `ℚ`; `int(x)` on a nonnegative value is `pyInt` (floor).
* Python dicts keyed by chunk id are modelled as association lists with
  unique keys (`dinsert` preserves the original position of an existing key,
  as CPython dicts do); `dict.get(k, 0)` style counters are modelled as a
  total function `ℕ → ℕ` defaulting to 0.
* Stateful methods become pure functions from the object state to the new
  state plus the returned value; the wall clock (`time.time()`) is passed in
  as an explicit `now` argument.
* `str.lower()` is modelled as ASCII lowering (all strings involved in the
  retry table are ASCII); Python's substring test `a in b` is `contains_sub`.
-/

/-- ASCII lower-casing of one character (model of `str.lower` per char). -/
def ascii_lower (c : Char) : Char :=
  if 65 ≤ c.toNat ∧ c.toNat ≤ 90 then Char.ofNat (c.toNat + 32) else c

/-- Model of Python `s.lower()` as a character list. -/
def lower (s : String) : List Char := s.data.map ascii_lower

/-- `starts_with hay pat` holds when `pat` is a prefix of `hay`. -/
def starts_with : List Char → List Char → Bool
  | _, [] => true
  | [], _ :: _ => false
  | h :: t, p :: ps => h == p && starts_with t ps

/-- Model of Python's substring test `pat in hay`. -/
def contains_sub : List Char → List Char → Bool
  | [], pat => pat.isEmpty
  | c :: rest, pat => starts_with (c :: rest) pat || contains_sub rest pat

/-- Model of Python `int(q)` for nonnegative `q` (truncation = floor). -/
def pyInt (q : ℚ) : ℕ := q.floor.toNat

/-- Pointwise update of a counter map (`d[k] = v` on a `get`-with-default
dict). -/
def fupdate (f : ℕ → ℕ) (k v : ℕ) : ℕ → ℕ := fun x => if x = k then v else f x

/-- Association-list update with CPython dict semantics: an existing key keeps
its position, a new key is appended at the end. -/
def dinsert {α : Type} (d : List (ℕ × α)) (k : ℕ) (v : α) : List (ℕ × α) :=
  match d with
  | [] => [(k, v)]
  | (k', v') :: rest => if k' = k then (k, v) :: rest else (k', v') :: dinsert rest k v

/-- Association-list deletion (`del d[k]`). -/
def ddelete {α : Type} (d : List (ℕ × α)) (k : ℕ) : List (ℕ × α) :=
  d.filter (fun p => p.1 ≠ k)

/-! ## RetryManager (`src/src/OpenSuperWhisper/retry_manager.py`) -/

/-- `RetryStrategy` enum. -/
inductive RetryStrategy where
  | immediate
  | exponential
  | fixed_delay
  | no_retry
  deriving DecidableEq, Repr

/-- `RetryConfig` dataclass; defaults `max_retries=1, base_delay=5.0,
max_delay=60.0, strategy=FIXED_DELAY`. -/
structure RetryConfig where
  max_retries : ℕ := 1
  base_delay : ℚ := 5
  max_delay : ℚ := 60
  strategy : RetryStrategy := RetryStrategy.fixed_delay
  deriving DecidableEq, Repr

/-- `RetryManager.ERROR_RETRY_CONFIG`, in the insertion order of the Python
dict (iteration order for the first-match scan). -/
def ERROR_RETRY_CONFIG : List (String × RetryConfig) :=
  [("Network timeout", { max_retries := 1, base_delay := 0, strategy := RetryStrategy.immediate }),
   ("Connection timed out", { max_retries := 1, base_delay := 0, strategy := RetryStrategy.immediate }),
   ("Rate limit", { max_retries := 1, base_delay := 60, strategy := RetryStrategy.fixed_delay }),
   ("API rate limit", { max_retries := 1, base_delay := 60, strategy := RetryStrategy.fixed_delay }),
   ("Network error", { max_retries := 1, base_delay := 5, strategy := RetryStrategy.fixed_delay }),
   ("Authentication", { max_retries := 0, strategy := RetryStrategy.no_retry }),
   ("API key", { max_retries := 0, strategy := RetryStrategy.no_retry }),
   ("default", { max_retries := 1, base_delay := 10, strategy := RetryStrategy.fixed_delay })]

/-- `RetryManager` state. `retry_counts` models the Python dict through its
reads `retry_counts.get(chunk_id, 0)` as a total function defaulting to 0. -/
structure RetryManager where
  retry_queue : List (ℕ × ℚ)
  retry_counts : ℕ → ℕ
  is_active : Bool

/-- `RetryManager.__init__`. -/
def RetryManager.init : RetryManager :=
  { retry_queue := [], retry_counts := fun _ => 0, is_active := true }

/-- `RetryManager._get_retry_config`: case-insensitive first-match substring
scan of the table, falling back to the `"default"` entry. -/
def get_retry_config (error : String) : RetryConfig :=
  let error_lower := lower error
  match ERROR_RETRY_CONFIG.find? (fun p => contains_sub error_lower (lower p.1)) with
  | some p => p.2
  | none => { max_retries := 1, base_delay := 10, strategy := RetryStrategy.fixed_delay }

/-- `RetryManager.should_retry`. -/
def should_retry (m : RetryManager) (chunk_id : ℕ) (error : String) : Bool :=
  let current_retries := m.retry_counts chunk_id
  let config := get_retry_config error
  if config.max_retries ≤ current_retries then false
  else if config.strategy = RetryStrategy.no_retry then false
  else true

/-- `RetryManager._calculate_delay`. -/
def calculate_delay (config : RetryConfig) (retry_count : ℕ) : ℚ :=
  match config.strategy with
  | RetryStrategy.immediate => 0
  | RetryStrategy.fixed_delay => config.base_delay
  | RetryStrategy.exponential => min (config.base_delay * 2 ^ retry_count) config.max_delay
  | RetryStrategy.no_retry => config.base_delay

/-- `RetryManager.schedule_retry` (the wall-clock read is the `now` input). -/
def schedule_retry (m : RetryManager) (chunk_id : ℕ) (error : String) (now : ℚ) :
    RetryManager × Option ℚ :=
  if should_retry m chunk_id error = false then (m, none)
  else
    let config := get_retry_config error
    let current_retries := m.retry_counts chunk_id
    let delay := calculate_delay config current_retries
    let retry_time := now + delay
    ({ m with
        retry_queue := m.retry_queue ++ [(chunk_id, retry_time)],
        retry_counts := fupdate m.retry_counts chunk_id (current_retries + 1) },
     some retry_time)

/-- `RetryManager.get_ready_retries`: inactive managers answer `[]` without
touching the queue; otherwise ready entries are drained in queue order. -/
def get_ready_retries (m : RetryManager) (now : ℚ) : RetryManager × List ℕ :=
  if m.is_active = false then (m, [])
  else
    let ready := (m.retry_queue.filter (fun p => decide (p.2 ≤ now))).map Prod.fst
    ({ m with retry_queue := m.retry_queue.filter (fun p => ¬ decide (p.2 ≤ now)) }, ready)

/-- `RetryManager.cancel_all_retries`. -/
def cancel_all_retries (_m : RetryManager) : RetryManager :=
  { retry_queue := [], retry_counts := fun _ => 0, is_active := false }

/-- `RetryManager.remove_chunk` (deleting a counter key is observationally
resetting it to the `get` default 0). -/
def remove_chunk (m : RetryManager) (chunk_id : ℕ) : RetryManager :=
  { m with
      retry_queue := m.retry_queue.filter (fun p => p.1 ≠ chunk_id),
      retry_counts := fupdate m.retry_counts chunk_id 0 }

/-- The state-changing operations of a `RetryManager`. -/
inductive RetryOp where
  | schedule (chunk_id : ℕ) (error : String) (now : ℚ)
  | ready (now : ℚ)
  | removeChunk (chunk_id : ℕ)
  | cancelAll

/-- One operation applied to the manager state. -/
def retry_step (m : RetryManager) : RetryOp → RetryManager
  | RetryOp.schedule cid err now => (schedule_retry m cid err now).1
  | RetryOp.ready now => (get_ready_retries m now).1
  | RetryOp.removeChunk cid => remove_chunk m cid
  | RetryOp.cancelAll => cancel_all_retries m

/-- A sequence of operations applied to the manager state. -/
def retry_run (m : RetryManager) : List RetryOp → RetryManager
  | [] => m
  | op :: ops => retry_run (retry_step m op) ops

/-! ## ChunkProcessor (`src/src/OpenSuperWhisper/chunk_processor.py`) -/

/-- Audio sample arrays (numpy float arrays) as lists of exact rationals. -/
def Audio : Type := List ℚ

/-- `ChunkStatus` enum. -/
inductive ChunkStatus where
  | pending
  | processing
  | completed
  | error
  | cancelled
  deriving DecidableEq, Repr

/-- `ChunkResult` dataclass. -/
structure ChunkResult where
  chunk_id : ℕ
  status : ChunkStatus
  raw_text : Option String := none
  formatted_text : Option String := none
  error : Option String := none
  retry_count : ℕ := 0
  timestamp : ℚ := 0
  deriving DecidableEq, Repr

/-- The mutable state of a `ChunkProcessor`.  `api_futures` records the chunk
ids of submitted tasks (the queued work); the worker pool itself is external
concurrency machinery, so task execution is modelled separately by
`process_chunk_task` / `handle_chunk_completion`. -/
structure ChunkProcessor where
  format_enabled : Bool
  chunk_results : List (ℕ × ChunkResult)
  processing_chunks : List (ℕ × Audio)
  cancel_flag : Bool
  api_futures : List ℕ
  chunks_deleted : ℕ

/-- `ChunkProcessor.__init__` (collaborator model ids and callbacks are
external and carry no state relevant here). -/
def ChunkProcessor.init (format_enabled : Bool) : ChunkProcessor :=
  { format_enabled := format_enabled
    chunk_results := []
    processing_chunks := []
    cancel_flag := false
    api_futures := []
    chunks_deleted := 0 }

/-- `ChunkProcessor.process_chunk`: rejected under the cancel flag, otherwise
stores the audio, records a fresh pending `ChunkResult` and enqueues the task,
returning the future (modelled by the chunk id). -/
def process_chunk (p : ChunkProcessor) (chunk_id : ℕ) (audio_data : Audio) (now : ℚ) :
    ChunkProcessor × Option ℕ :=
  if p.cancel_flag then (p, none)
  else
    ({ p with
        processing_chunks := dinsert p.processing_chunks chunk_id audio_data,
        chunk_results := dinsert p.chunk_results chunk_id
          { chunk_id := chunk_id, status := ChunkStatus.pending, timestamp := now },
        api_futures := p.api_futures ++ [chunk_id] },
     some chunk_id)

/-- Outcome of one collaborator call (`asr_api.transcribe_audio` or
`formatter_api.format_text`): either the returned text or the message of the
raised exception. -/
inductive CallResult where
  | ok (text : String)
  | fail (err : String)

/-- `ChunkProcessor._process_chunk_task`, the worker body.  The concurrently
mutable `self.cancel_flag` is modelled as a stream `flags` of the values read
at successive checks; the function returns the produced `ChunkResult` together
with the number of flag reads it performed.  Collaborator outcomes are the
oracle inputs `asr` and `fmt`. -/
def process_chunk_task (format_enabled : Bool) (result : ChunkResult)
    (flags : ℕ → Bool) (asr : CallResult) (fmt : CallResult) : ChunkResult × ℕ :=
  let result := { result with status := ChunkStatus.processing }
  if flags 0 then ({ result with status := ChunkStatus.cancelled }, 1)
  else
    match asr with
    | CallResult.fail e => ({ result with status := ChunkStatus.error, error := some e }, 1)
    | CallResult.ok raw_text =>
        let result := { result with raw_text := some raw_text }
        if flags 1 then ({ result with status := ChunkStatus.cancelled }, 2)
        else if format_enabled ∧ raw_text ≠ "" then
          match fmt with
          | CallResult.fail e => ({ result with status := ChunkStatus.error, error := some e }, 2)
          | CallResult.ok formatted =>
              ({ result with formatted_text := some formatted, status := ChunkStatus.completed }, 2)
        else ({ result with status := ChunkStatus.completed }, 2)

/-- The downstream callback dispatched for a finished chunk. -/
inductive CallbackEvent where
  | completed (chunk_id : ℕ)
  | errored (chunk_id : ℕ)
  deriving DecidableEq, Repr

/-- `ChunkProcessor._handle_chunk_completion`: store the task's result, drop
the chunk audio, and dispatch at most one callback (completion on `completed`,
error on `error`, nothing otherwise). -/
def handle_chunk_completion (p : ChunkProcessor) (chunk_id : ℕ) (result : ChunkResult) :
    ChunkProcessor × Option CallbackEvent :=
  let p := { p with chunk_results := dinsert p.chunk_results chunk_id result }
  let p :=
    if (p.processing_chunks.lookup chunk_id).isSome then
      { p with
          processing_chunks := ddelete p.processing_chunks chunk_id,
          chunks_deleted := p.chunks_deleted + 1 }
    else p
  match result.status with
  | ChunkStatus.completed => (p, some (CallbackEvent.completed chunk_id))
  | ChunkStatus.error => (p, some (CallbackEvent.errored chunk_id))
  | _ => (p, none)

/-- `ChunkProcessor.retry_chunk`: refuse when the chunk is unknown, already
retried once, or its audio was released; otherwise bump `retry_count`, reset
the status and resubmit through `process_chunk`. -/
def retry_chunk (p : ChunkProcessor) (chunk_id : ℕ) (now : ℚ) :
    ChunkProcessor × Option ℕ :=
  match p.chunk_results.lookup chunk_id with
  | none => (p, none)
  | some result =>
      if 1 ≤ result.retry_count then (p, none)
      else
        match p.processing_chunks.lookup chunk_id with
        | none => (p, none)
        | some audio_data =>
            let result :=
              { result with retry_count := result.retry_count + 1, status := ChunkStatus.pending }
            let p := { p with chunk_results := dinsert p.chunk_results chunk_id result }
            process_chunk p chunk_id audio_data now

/-- `ChunkProcessor.cancel_all_processing`: set the reject-new-work flag and
drop the references to all pending chunk audio.  (Cancelling the queued
futures affects only the external pool.) -/
def cancel_all_processing (p : ChunkProcessor) : ChunkProcessor :=
  { p with cancel_flag := true, processing_chunks := [] }

/-- `ChunkProcessor.get_results_in_order`: results listed by ascending
chunk id (`sorted(self.chunk_results.keys())`). -/
def get_results_in_order (d : List (ℕ × ChunkResult)) : List ChunkResult :=
  (List.insertionSort (· ≤ ·) (d.map Prod.fst)).filterMap (fun k => d.lookup k)

/-- The inner loop of `ChunkProcessor.remove_duplicate_text`:
`for i in range(window_size, 5, -1): if text1[-i:] == text2[:i]: ...`,
returning the first (largest) matching overlap length above 5. -/
def find_overlap_len (t1 t2 : List Char) : ℕ → Option ℕ
  | 0 => none
  | n + 1 =>
      if n + 1 < 6 then none
      else if t1.drop (t1.length - (n + 1)) = t2.take (n + 1) then some (n + 1)
      else find_overlap_len t1 t2 n

/-- `ChunkProcessor.remove_duplicate_text`. -/
def remove_duplicate_text (text1 text2 : String) : String :=
  if text1 = "" ∨ text2 = "" then text1 ++ text2
  else
    let window_size := min (min (text1.length / 10) (text2.length / 10)) 50
    match find_overlap_len text1.data text2.data window_size with
    | some i => text1 ++ String.mk (text2.data.drop i)
    | none => text1 ++ text2

/-- `texts[-1] = remove_duplicate_text(texts[-1], t)` on a nonempty list,
`texts.append(t)` on an empty one (the guard `and raw_texts` in the caller). -/
def merge_into_last : List String → String → List String
  | [], t => [t]
  | [x], t => [remove_duplicate_text x t]
  | x :: y :: xs, t => x :: merge_into_last (y :: xs) t

/-- The loop body of `ChunkProcessor.combine_results`, with `i` the running
index of the enumeration. -/
def combine_loop : List ChunkResult → ℕ → List String → List String →
    List String × List String
  | [], _, raw_texts, formatted_texts => (raw_texts, formatted_texts)
  | result :: rest, i, raw_texts, formatted_texts =>
      match result.status with
      | ChunkStatus.completed =>
          let raw_texts :=
            match result.raw_text with
            | some t =>
                if t ≠ "" then
                  if 0 < i ∧ raw_texts ≠ [] then merge_into_last raw_texts t
                  else raw_texts ++ [t]
                else raw_texts
            | none => raw_texts
          let formatted_texts :=
            match result.formatted_text with
            | some t =>
                if t ≠ "" then
                  if 0 < i ∧ formatted_texts ≠ [] then merge_into_last formatted_texts t
                  else formatted_texts ++ [t]
                else formatted_texts
            | none => formatted_texts
          combine_loop rest (i + 1) raw_texts formatted_texts
      | ChunkStatus.error =>
          combine_loop rest (i + 1) (raw_texts ++ ["[エラー: 取得失敗]"])
            (formatted_texts ++ ["[エラー: 取得失敗]"])
      | _ => combine_loop rest (i + 1) raw_texts formatted_texts

/-- `ChunkProcessor.combine_results` on an explicitly passed result list. -/
def combine_results (results : List ChunkResult) : String × String :=
  let p := combine_loop results 0 [] []
  (String.intercalate "\n" p.1, String.intercalate "\n" p.2)

/-- `ChunkProcessor.combine_results()` with no argument: the recorded results
in chunk-id order. -/
def combine_results_default (d : List (ℕ × ChunkResult)) : String × String :=
  combine_results (get_results_in_order d)

/-- The state-changing operations of a `ChunkProcessor`. -/
inductive ProcOp where
  | submit (chunk_id : ℕ) (audio_data : Audio) (now : ℚ)
  | retry (chunk_id : ℕ) (now : ℚ)
  | complete (chunk_id : ℕ) (result : ChunkResult)
  | cancelAll

/-- One operation applied to the processor state. -/
def proc_step (p : ChunkProcessor) : ProcOp → ChunkProcessor
  | ProcOp.submit cid audio now => (process_chunk p cid audio now).1
  | ProcOp.retry cid now => (retry_chunk p cid now).1
  | ProcOp.complete cid result => (handle_chunk_completion p cid result).1
  | ProcOp.cancelAll => cancel_all_processing p

/-- A sequence of operations applied to the processor state. -/
def proc_run (p : ChunkProcessor) : List ProcOp → ChunkProcessor
  | [] => p
  | op :: ops => proc_run (proc_step p op) ops

/-! ## RealtimeRecorder (`src/OpenSuperWhisper/realtime_recorder.py`) -/

/-- `RealtimeRecorder.calculate_overlap_duration`: static per-language lookup
with default 0.6s. -/
def calculate_overlap_duration (language : String) : ℚ :=
  match language with
  | "ja" => 0.8
  | "en" => 0.5
  | _ => 0.6

/-- Python slice `l[i:j]` for nonnegative indices (clamping like Python). -/
def pySlice {α : Type} (l : List α) (i j : ℕ) : List α := (l.drop i).take (j - i)

/-- The silence test `rms < SILENCE_THRESHOLD` on a window, with
`rms = sqrt(mean(x^2))` and threshold `0.01`.  Both sides being nonnegative,
`sqrt(sum/n) < 1/100` is equivalent to the exact rational comparison
`sum * 10000 < n`; for the empty window numpy yields `nan`, and `nan < t`
is false, matching `0 < 0`. -/
def rms_lt_threshold (xs : List ℚ) : Bool :=
  decide ((xs.map (fun x => x * x)).sum * 10000 < (xs.length : ℚ))

/-- `RealtimeRecorder.detect_silence` over the ring-buffer contents
(`recent_audio`, most recent samples last).  Note Python's `a[-0:]` is the
whole array, hence the `required_samples = 0` case. -/
def detect_silence (sample_rate : ℕ) (recent_audio : List ℚ) (duration : ℚ) : Bool :=
  if recent_audio.isEmpty then false
  else
    let required_samples := pyInt (duration * sample_rate)
    if recent_audio.length < required_samples then false
    else
      let recent_samples :=
        if required_samples = 0 then recent_audio
        else recent_audio.drop (recent_audio.length - required_samples)
      rms_lt_threshold recent_samples

/-- The recorder state read by the boundary check. -/
structure RealtimeRecorder where
  sample_rate : ℕ
  chunk_start_time : ℚ
  recent_audio : List ℚ

/-- `RealtimeRecorder.check_chunk_boundary` with the constants
`MIN_CHUNK_DURATION=60`, `MAX_CHUNK_DURATION=120`, `SILENCE_CHECK_START=90`,
`PRIORITY_SPLIT_TIME=110`, `MIN_SILENCE_DURATION=1.5`,
`SHORT_SILENCE_DURATION=0.5` inlined, and the hard-coded language `"ja"`. -/
def check_chunk_boundary (rec : RealtimeRecorder) (current_time : ℚ) : Bool :=
  let chunk_duration := current_time - rec.chunk_start_time
  if chunk_duration < 60 then false
  else if 120 ≤ chunk_duration then true
  else if 90 ≤ chunk_duration ∧
      detect_silence rec.sample_rate rec.recent_audio
        (1.5 + calculate_overlap_duration "ja") then true
  else if 110 ≤ chunk_duration ∧
      detect_silence rec.sample_rate rec.recent_audio 0.5 then true
  else false

/-- `RealtimeRecorder.create_chunk_with_overlap`. -/
def create_chunk_with_overlap (sample_rate : ℕ) (audio_data : List ℚ)
    (start_idx end_idx : ℕ) : List ℚ × Option (List ℚ) :=
  let overlap_duration := calculate_overlap_duration "ja"
  let overlap_samples := pyInt (overlap_duration * sample_rate)
  let chunk_data := pySlice audio_data start_idx end_idx
  if end_idx + overlap_samples ≤ audio_data.length then
    (pySlice audio_data start_idx (end_idx + overlap_samples),
     some (pySlice audio_data (max start_idx (end_idx - overlap_samples))
       (end_idx + overlap_samples)))
  else (chunk_data, none)

/-! ## CancelHandler (`src/OpenSuperWhisper/cancel_handler.py`) -/

/-- The controller state: just the `is_cancelling` flag. -/
structure CancelHandler where
  is_cancelling : Bool
  deriving DecidableEq, Repr

/-- The string returned by `request_cancel`. -/
inductive CancelChoice where
  | save
  | discard
  | cancel
  | force
  deriving DecidableEq, Repr

/-- The button the user clicks in the confirmation dialog. -/
inductive DialogButton where
  | saveBtn
  | discardBtn
  | cancelBtn
  deriving DecidableEq, Repr

/-- `CancelHandler.request_cancel`; the dialog interaction is the oracle
input `clicked`. -/
def request_cancel (h : CancelHandler) (show_dialog : Bool) (clicked : DialogButton) :
    CancelHandler × CancelChoice :=
  if h.is_cancelling then (h, CancelChoice.cancel)
  else if show_dialog = false then ({ is_cancelling := true }, CancelChoice.force)
  else
    match clicked with
    | DialogButton.saveBtn => ({ is_cancelling := true }, CancelChoice.save)
    | DialogButton.discardBtn => ({ is_cancelling := true }, CancelChoice.discard)
    | DialogButton.cancelBtn => (h, CancelChoice.cancel)

/-- UI callback invocations made by `execute_cancel`. -/
inductive UiEvent where
  | cancelling
  | clearAll
  | waitCompletion
  | cancelled
  | errorMsg
  deriving DecidableEq, Repr

/-- Observable side effects of `execute_cancel` on its collaborators. -/
inductive Effect where
  | ui (e : UiEvent)
  | recorderStop
  | processorCancelAll
  | processorSetCancelFlag
  | cancelCompletedSignal
  deriving DecidableEq, Repr

/-- The collaborators handed to `execute_cancel`: an optional recorder (with
its `is_recording` flag), an optional processor (with its `cancel_flag`), and
whether a UI callback was supplied. -/
structure CancelWorld where
  recorder : Option Bool
  processor : Option Bool
  has_ui : Bool
  deriving DecidableEq, Repr

/-- Intermediate state while running the `try` block of `execute_cancel`. -/
structure ExecTrace where
  world : CancelWorld
  effects : List Effect
  idx : ℕ
  raised : Bool

/-- One statement of the `try` block: skipped when its guard is false or an
earlier statement raised; otherwise it either raises (per the `fail` oracle,
modelling an arbitrary internal exception) or performs its effect. -/
def try_step (fail : ℕ → Bool) (cond : Bool) (eff : Effect)
    (upd : CancelWorld → CancelWorld) (s : ExecTrace) : ExecTrace :=
  if s.raised then s
  else if cond = false then s
  else if fail s.idx then { s with idx := s.idx + 1, raised := true }
  else { world := upd s.world, effects := s.effects ++ [eff], idx := s.idx + 1, raised := false }

/-- `CancelHandler.execute_cancel`: the `'cancel'` (abort) choice resets the
flag and returns at once; otherwise the `try` block runs step by step, any
exception jumps to the `except` handler (which reports through the UI), and
the `finally` clause unconditionally clears `is_cancelling`. -/
def execute_cancel (_h : CancelHandler) (choice : CancelChoice) (w : CancelWorld)
    (fail : ℕ → Bool) : CancelHandler × CancelWorld × List Effect :=
  if choice = CancelChoice.cancel then ({ is_cancelling := false }, w, [])
  else
    let s0 : ExecTrace := { world := w, effects := [], idx := 0, raised := false }
    let s1 := try_step fail w.has_ui (Effect.ui UiEvent.cancelling) id s0
    let s2 := try_step fail (s1.world.recorder = some true) Effect.recorderStop
        (fun w => { w with recorder := some false }) s1
    let s3 := try_step fail (choice = CancelChoice.discard ∧ s2.world.processor.isSome)
        Effect.processorCancelAll (fun w => { w with processor := some true }) s2
    let s4 := try_step fail (choice = CancelChoice.discard ∧ s3.world.has_ui)
        (Effect.ui UiEvent.clearAll) id s3
    let s5 := try_step fail (choice = CancelChoice.save ∧ s4.world.processor.isSome)
        Effect.processorSetCancelFlag (fun w => { w with processor := some true }) s4
    let s6 := try_step fail (choice = CancelChoice.save ∧ s5.world.has_ui)
        (Effect.ui UiEvent.waitCompletion) id s5
    let s7 := try_step fail true Effect.cancelCompletedSignal id s6
    let s8 := try_step fail s7.world.has_ui (Effect.ui UiEvent.cancelled) id s7
    let s9 :=
      if s8.raised ∧ w.has_ui ∧ fail s8.idx = false then
        { s8 with effects := s8.effects ++ [Effect.ui UiEvent.errorMsg] }
      else s8
    ({ is_cancelling := false }, s9.world, s9.effects)

/-! ## Specification-side definitions used by refinement claims -/

/-- The classification table as the (amended) specification words it: a
case-insensitive first-match chain — timeout phrases → immediate retry with
max 1 attempt; rate-limit phrases → 1 attempt after 60s; the network-error
phrase → 1 attempt after 5s; authentication / API-key phrases → no retry;
anything unmatched → 1 attempt after 10s. -/
def classify_spec (error : String) : RetryConfig :=
  let e := lower error
  if contains_sub e (lower "Network timeout") || contains_sub e (lower "Connection timed out") then
    { max_retries := 1, base_delay := 0, strategy := RetryStrategy.immediate }
  else if contains_sub e (lower "Rate limit") || contains_sub e (lower "API rate limit") then
    { max_retries := 1, base_delay := 60, strategy := RetryStrategy.fixed_delay }
  else if contains_sub e (lower "Network error") then
    { max_retries := 1, base_delay := 5, strategy := RetryStrategy.fixed_delay }
  else if contains_sub e (lower "Authentication") || contains_sub e (lower "API key") then
    { max_retries := 0, strategy := RetryStrategy.no_retry }
  else
    { max_retries := 1, base_delay := 10, strategy := RetryStrategy.fixed_delay }

/-- The boundary decision as the claim words it: no split under 60s; force
split at 120s; from 90s split exactly when the trailing
`1.5s + language_overlap` window of the ring buffer is below the RMS
threshold, and otherwise from 110s exactly when the trailing 0.5s window is
below threshold. -/
def boundary_spec (rec : RealtimeRecorder) (current_time : ℚ) : Bool :=
  let d := current_time - rec.chunk_start_time
  decide (60 ≤ d) &&
    (decide (120 ≤ d) ||
      (decide (90 ≤ d) &&
        detect_silence rec.sample_rate rec.recent_audio
          (1.5 + calculate_overlap_duration "ja")) ||
      (decide (110 ≤ d) && detect_silence rec.sample_rate rec.recent_audio 0.5))

/-- The `"ja"` overlap length in samples (`int(0.8 * sample_rate)`). -/
def ja_overlap_samples (sample_rate : ℕ) : ℕ :=
  pyInt (calculate_overlap_duration "ja" * sample_rate)

/-- A completed sample result for chunk 0. -/
def resultA : ChunkResult :=
  { chunk_id := 0, status := ChunkStatus.completed, raw_text := some "abcdef" }

/-- A completed sample result for chunk 1. -/
def resultB : ChunkResult :=
  { chunk_id := 1, status := ChunkStatus.completed, raw_text := some "ghijkl" }

/-- A 3-second sample buffer at 5 Hz: the ramp 0,1,...,14. -/
def c4_audio : List ℚ :=
  [0, 1, 2, 3, 4, 5, 6, 7, 8, 9, 10, 11, 12, 13, 14]

/-! ## Theorems -/

/-- C5 counterexample: the error string `"Network error"` is a network phrase,
yet `_get_retry_config` maps it to a fixed 5-second delay, not to the
immediate-retry policy the claim asserts for network phrases. -/
theorem C5_counterexample :
    get_retry_config "Network error" =
      { max_retries := 1, base_delay := 5, max_delay := 60,
        strategy := RetryStrategy.fixed_delay } ∧
    (get_retry_config "Network error").strategy ≠ RetryStrategy.immediate := by
  exact ⟨by decide, by decide⟩

/-- C5 (amended): `_get_retry_config` performs a case-insensitive first-match
substring scan whose outcome is exactly the prioritized chain of
`classify_spec`: timeout phrases → immediate retry, max 1 attempt;
rate-limit phrases → 1 attempt after 60s; the phrase "Network error" →
1 attempt after 5s; authentication/API-key phrases → no retry; any
unmatched error → 1 attempt after 10s. -/
theorem C5_classification_refines_table (error : String) :
    get_retry_config error = classify_spec error := by
  unfold get_retry_config classify_spec ERROR_RETRY_CONFIG
  simp only [List.find?]
  cases h1 : contains_sub (lower error) (lower "Network timeout") <;>
    cases h2 : contains_sub (lower error) (lower "Connection timed out") <;>
      cases h3 : contains_sub (lower error) (lower "Rate limit") <;>
        cases h4 : contains_sub (lower error) (lower "API rate limit") <;>
          cases h5 : contains_sub (lower error) (lower "Network error") <;>
            cases h6 : contains_sub (lower error) (lower "Authentication") <;>
              cases h7 : contains_sub (lower error) (lower "API key") <;>
                cases h8 : contains_sub (lower error) (lower "default") <;>
                  simp_all

/-- C6: `should_retry` answers `false` exactly when the recorded attempt count
meets or exceeds the matched policy's maximum or the policy is no-retry;
concretely it refuses an "Authentication failed" error on the first attempt,
and for a "Network timeout" error (max 1 attempt) it answers `true` on a
fresh manager and `false` after the retry has been scheduled. -/
theorem C6_should_retry_characterization :
    (∀ (m : RetryManager) (chunk_id : ℕ) (error : String),
        should_retry m chunk_id error =
          (!(decide ((get_retry_config error).max_retries ≤ m.retry_counts chunk_id) ||
             decide ((get_retry_config error).strategy = RetryStrategy.no_retry)))) ∧
    should_retry RetryManager.init 0 "Authentication failed" = false ∧
    should_retry RetryManager.init 0 "Network timeout" = true ∧
    should_retry (schedule_retry RetryManager.init 0 "Network timeout" 0).1 0
      "Network timeout" = false := by
  refine ⟨fun m chunk_id error => ?_, by decide, by decide, by decide⟩
  unfold should_retry
  dsimp only
  split_ifs with h1 h2 <;> simp_all

/-- No `RetryManager` operation ever turns `is_active` back on. -/
theorem retry_step_keeps_inactive (m : RetryManager) (op : RetryOp)
    (h : m.is_active = false) : (retry_step m op).is_active = false := by
  cases op with
  | schedule cid err now =>
      simp only [retry_step, schedule_retry]
      split_ifs <;> simp [h]
  | ready now =>
      simp only [retry_step, get_ready_retries]
      split_ifs <;> simp [h]
  | removeChunk cid =>
      simp [retry_step, remove_chunk, h]
  | cancelAll =>
      simp [retry_step, cancel_all_retries]

/-- Inactivity persists through any operation sequence. -/
theorem retry_run_keeps_inactive (ops : List RetryOp) (m : RetryManager)
    (h : m.is_active = false) : (retry_run m ops).is_active = false := by
  induction ops generalizing m with
  | nil => exact h
  | cons op ops ih => exact ih _ (retry_step_keeps_inactive m op h)

/-- C10: once `cancel_all_retries` has run, every later `get_ready_retries`
answers the empty list — after any sequence of further operations — because
`is_active` is cleared and never reset; yet `schedule_retry` still accepts
and enqueues retryable errors (it never consults `is_active`). -/
theorem C10_cancel_all_retries_is_permanent (m : RetryManager) (ops : List RetryOp)
    (now : ℚ) (chunk_id : ℕ) (error : String) (now2 : ℚ) :
    (retry_run (cancel_all_retries m) ops).is_active = false ∧
    (get_ready_retries (retry_run (cancel_all_retries m) ops) now).2 = [] ∧
    (should_retry (retry_run (cancel_all_retries m) ops) chunk_id error = true →
      ((schedule_retry (retry_run (cancel_all_retries m) ops) chunk_id error now2).2.isSome
          = true ∧
        (schedule_retry (retry_run (cancel_all_retries m) ops) chunk_id error
              now2).1.retry_queue.length =
          (retry_run (cancel_all_retries m) ops).retry_queue.length + 1)) := by
  have hact : (retry_run (cancel_all_retries m) ops).is_active = false :=
    retry_run_keeps_inactive ops _ rfl
  refine ⟨hact, ?_, ?_⟩
  · unfold get_ready_retries
    simp [hact]
  · intro hsr
    unfold schedule_retry
    simp [hsr]

/-- C10 witness: on a freshly cancelled manager, a "Network timeout" error is
still accepted and enqueued while `get_ready_retries` stays empty. -/
theorem C10_witness :
    should_retry (retry_run (cancel_all_retries RetryManager.init) []) 0
        "Network timeout" = true ∧
    (get_ready_retries (retry_run (cancel_all_retries RetryManager.init) []) 0).2 = [] ∧
    (schedule_retry (retry_run (cancel_all_retries RetryManager.init) []) 0
          "Network timeout" 0).2.isSome = true := by
  have h : should_retry (retry_run (cancel_all_retries RetryManager.init) []) 0
      "Network timeout" = true := by decide
  have main := C10_cancel_all_retries_is_permanent RetryManager.init [] 0 0
    "Network timeout" 0
  exact ⟨h, main.2.1, (main.2.2 h).1⟩

/-- `process_chunk` never changes the cancel flag. -/
theorem process_chunk_cancel_flag (p : ChunkProcessor) (cid : ℕ) (a : Audio) (now : ℚ) :
    (process_chunk p cid a now).1.cancel_flag = p.cancel_flag := by
  unfold process_chunk
  split_ifs <;> rfl

/-- `retry_chunk` never changes the cancel flag. -/
theorem retry_chunk_cancel_flag (p : ChunkProcessor) (cid : ℕ) (now : ℚ) :
    (retry_chunk p cid now).1.cancel_flag = p.cancel_flag := by
  unfold retry_chunk
  cases hr : p.chunk_results.lookup cid with
  | none => rfl
  | some r =>
      dsimp only
      split_ifs with h1
      · rfl
      · cases ha : p.processing_chunks.lookup cid with
        | none => rfl
        | some audio =>
            dsimp only
            rw [process_chunk_cancel_flag]

/-- `_handle_chunk_completion` never changes the cancel flag. -/
theorem handle_completion_cancel_flag (p : ChunkProcessor) (cid : ℕ) (r : ChunkResult) :
    (handle_chunk_completion p cid r).1.cancel_flag = p.cancel_flag := by
  unfold handle_chunk_completion
  cases r.status <;> (dsimp only; split_ifs <;> rfl)

/-- No `ChunkProcessor` operation ever clears an activated cancel flag. -/
theorem proc_step_keeps_cancel (p : ChunkProcessor) (op : ProcOp)
    (h : p.cancel_flag = true) : (proc_step p op).cancel_flag = true := by
  cases op with
  | submit cid a now =>
      simpa [proc_step, process_chunk_cancel_flag] using h
  | retry cid now =>
      simpa [proc_step, retry_chunk_cancel_flag] using h
  | complete cid r =>
      simpa [proc_step, handle_completion_cancel_flag] using h
  | cancelAll =>
      simp [proc_step, cancel_all_processing]

/-- The activated cancel flag persists through any operation sequence. -/
theorem proc_run_keeps_cancel (ops : List ProcOp) (p : ChunkProcessor)
    (h : p.cancel_flag = true) : (proc_run p ops).cancel_flag = true := by
  induction ops generalizing p with
  | nil => exact h
  | cons op ops ih => exact ih _ (proc_step_keeps_cancel p op h)

/-- C8: after `cancel_all_processing`, every later `process_chunk` call — for
any chunk id, after any further operations — returns `None` and leaves the
state untouched (no `ChunkResult` recorded, nothing enqueued), because the
cancel flag is set and no operation resets it; `cancel_all_processing` also
empties `processing_chunks` (dropping all pending audio references) at once. -/
theorem C8_cancel_all_blocks_new_submissions (p : ChunkProcessor) (ops : List ProcOp)
    (chunk_id : ℕ) (audio : Audio) (now : ℚ) :
    process_chunk (proc_run (cancel_all_processing p) ops) chunk_id audio now =
      (proc_run (cancel_all_processing p) ops, none) ∧
    (cancel_all_processing p).processing_chunks = [] ∧
    (cancel_all_processing p).cancel_flag = true := by
  have hflag : (proc_run (cancel_all_processing p) ops).cancel_flag = true :=
    proc_run_keeps_cancel ops _ rfl
  refine ⟨?_, rfl, rfl⟩
  unfold process_chunk
  simp [hflag]

/-- C2 (the claimed behaviour is the documented intent, but the code defeats
it): with a submitted chunk whose audio is still retained, `retry_chunk`
returns a handle on the first call, yet `process_chunk` immediately
overwrites the stored `ChunkResult` with a fresh record whose `retry_count`
is 0 — so the recorded count after the first retry is 0 and a second
`retry_chunk` call returns a handle again instead of `None`. -/
theorem C2_second_retry_returns_a_handle :
    (retry_chunk (process_chunk (ChunkProcessor.init true) 0 [] 0).1 0 0).2 = some 0 ∧
    ((retry_chunk (process_chunk (ChunkProcessor.init true) 0 [] 0).1 0
          0).1.chunk_results.lookup 0).map ChunkResult.retry_count = some 0 ∧
    (retry_chunk (retry_chunk (process_chunk (ChunkProcessor.init true) 0 [] 0).1 0 0).1
        0 0).2 = some 0 := by
  exact ⟨by decide, by decide, by decide⟩

/-- C3 counterexample: run the worker task with a cancel flag that is clear at
the first two checks and set from the third read onwards, with both
collaborator calls succeeding.  The claim requires a third check after the
Formatter to observe the flag and cancel; instead the task reads the flag
only twice, finishes `completed`, and the completion callback fires. -/
theorem C3_counterexample :
    (process_chunk_task true { chunk_id := 0, status := ChunkStatus.pending }
        (fun n => decide (2 ≤ n)) (CallResult.ok "hello") (CallResult.ok "formatted")).2 = 2 ∧
    (process_chunk_task true { chunk_id := 0, status := ChunkStatus.pending }
        (fun n => decide (2 ≤ n)) (CallResult.ok "hello")
        (CallResult.ok "formatted")).1.status = ChunkStatus.completed ∧
    (process_chunk_task true { chunk_id := 0, status := ChunkStatus.pending }
        (fun n => decide (2 ≤ n)) (CallResult.ok "hello")
        (CallResult.ok "formatted")).1.status ≠ ChunkStatus.cancelled ∧
    (handle_chunk_completion (ChunkProcessor.init true) 0
        (process_chunk_task true { chunk_id := 0, status := ChunkStatus.pending }
          (fun n => decide (2 ≤ n)) (CallResult.ok "hello")
          (CallResult.ok "formatted")).1).2 =
      some (CallbackEvent.completed 0) := by
  exact ⟨by decide, by decide, by decide, by decide⟩

/-- C3 (amended): cancellation is checked at two points per chunk task —
before the ASR call and after the ASR call (before the Formatter); the task
never reads the flag more than twice, whenever a check observes the flag set
the chunk's status becomes `cancelled`, and a cancelled result triggers no
downstream callback. -/
theorem C3_two_cancellation_checkpoints (format_enabled : Bool) (r : ChunkResult)
    (flags : ℕ → Bool) (asr fmt : CallResult) (p : ChunkProcessor) (cid : ℕ) :
    (process_chunk_task format_enabled r flags asr fmt).2 ≤ 2 ∧
    (flags 0 = true →
      (process_chunk_task format_enabled r flags asr fmt).1.status = ChunkStatus.cancelled) ∧
    (∀ raw, asr = CallResult.ok raw → flags 0 = false → flags 1 = true →
      (process_chunk_task format_enabled r flags asr fmt).1.status = ChunkStatus.cancelled) ∧
    ((process_chunk_task format_enabled r flags asr fmt).1.status = ChunkStatus.cancelled →
      (handle_chunk_completion p cid (process_chunk_task format_enabled r flags asr fmt).1).2 =
        none) := by
  refine ⟨?_, ?_, ?_, ?_⟩
  · unfold process_chunk_task
    cases h0 : flags 0 <;> cases asr <;> dsimp only <;>
      (try cases h1 : flags 1) <;> (try split_ifs) <;> (try cases fmt) <;> simp
  · intro h0
    unfold process_chunk_task
    simp [h0]
  · intro raw hasr h0 h1
    subst hasr
    unfold process_chunk_task
    simp [h0, h1]
  · intro hc
    unfold handle_chunk_completion
    simp [hc]

/-- C3 witness: with the flag set from the start, the task cancels and no
callback fires. -/
theorem C3_witness :
    (fun _ : ℕ => true) 0 = true ∧
    (process_chunk_task true { chunk_id := 0, status := ChunkStatus.pending }
        (fun _ => true) (CallResult.ok "hello") (CallResult.ok "formatted")).1.status =
      ChunkStatus.cancelled := by
  exact ⟨rfl,
    (C3_two_cancellation_checkpoints true { chunk_id := 0, status := ChunkStatus.pending }
      (fun _ => true) (CallResult.ok "hello") (CallResult.ok "formatted")
      (ChunkProcessor.init true) 0).2.1 rfl⟩

/-- C9: `execute_cancel` always leaves the controller Idle
(`is_cancelling = false`) on return, for every choice, collaborator
configuration and internal-exception pattern (the `finally` clause); the
abort choice `'cancel'` returns to Idle touching neither recorder nor
processor and performing no effect; and a re-entrant `request_cancel` while
cancellation is already in progress is a no-op answering `'cancel'`. -/
theorem C9_cancel_state_machine (h : CancelHandler) (choice : CancelChoice)
    (w : CancelWorld) (fail : ℕ → Bool) (h' : CancelHandler) (show_dialog : Bool)
    (clicked : DialogButton) :
    (execute_cancel h choice w fail).1.is_cancelling = false ∧
    (choice = CancelChoice.cancel →
      execute_cancel h choice w fail = ({ is_cancelling := false }, w, [])) ∧
    (h'.is_cancelling = true →
      request_cancel h' show_dialog clicked = (h', CancelChoice.cancel)) := by
  refine ⟨?_, ?_, ?_⟩
  · unfold execute_cancel
    split_ifs <;> rfl
  · intro hc
    simp [execute_cancel, hc]
  · intro hi
    simp [request_cancel, hi]

/-- C9 witness: a controller mid-cancellation rejects a new request, and the
abort choice resets an in-progress controller with no effects. -/
theorem C9_witness :
    ({ is_cancelling := true } : CancelHandler).is_cancelling = true ∧
    (CancelChoice.cancel = CancelChoice.cancel) ∧
    request_cancel { is_cancelling := true } true DialogButton.saveBtn =
      ({ is_cancelling := true }, CancelChoice.cancel) ∧
    execute_cancel { is_cancelling := true } CancelChoice.cancel
        { recorder := some true, processor := some false, has_ui := true }
        (fun _ => false) =
      ({ is_cancelling := false },
        { recorder := some true, processor := some false, has_ui := true }, []) := by
  have main := C9_cancel_state_machine { is_cancelling := true } CancelChoice.cancel
    { recorder := some true, processor := some false, has_ui := true }
    (fun _ => false) { is_cancelling := true } true DialogButton.saveBtn
  exact ⟨rfl, rfl, main.2.2 rfl, main.2.1 rfl⟩

/-- In a map with distinct keys, membership determines the lookup. -/
theorem lookup_eq_some_of_mem {α : Type} {d : List (ℕ × α)} {k : ℕ} {v : α}
    (hnd : (d.map Prod.fst).Nodup) (hmem : (k, v) ∈ d) : d.lookup k = some v := by
  induction d with
  | nil => cases hmem
  | cons hd rest ih =>
      obtain ⟨a, b⟩ := hd
      simp only [List.map_cons, List.nodup_cons] at hnd
      rcases List.mem_cons.mp hmem with h | h
      · injection h with h1 h2
        subst h1
        subst h2
        simp [List.lookup]
      · have hk : (k == a) = false := by
          simp only [beq_eq_false_iff_ne, ne_eq]
          rintro rfl
          exact hnd.1 (List.mem_map.mpr ⟨(k, v), h, rfl⟩)
        simp [List.lookup, hk, ih hnd.2 h]

/-- An absent key looks up to `none`. -/
theorem lookup_eq_none_of_not_mem {α : Type} {d : List (ℕ × α)} {k : ℕ}
    (h : k ∉ d.map Prod.fst) : d.lookup k = none := by
  induction d with
  | nil => rfl
  | cons hd rest ih =>
      obtain ⟨a, b⟩ := hd
      simp only [List.map_cons, List.mem_cons] at h
      push_neg at h
      have hk : (k == a) = false := by
        simp only [beq_eq_false_iff_ne, ne_eq]
        exact h.1
      simp [List.lookup, hk, ih h.2]

/-- Lookups agree across a permutation of a distinct-key map. -/
theorem lookup_perm_eq {α : Type} {d₁ d₂ : List (ℕ × α)} (hperm : d₁.Perm d₂)
    (hnd : (d₁.map Prod.fst).Nodup) (k : ℕ) : d₁.lookup k = d₂.lookup k := by
  have hnd₂ : (d₂.map Prod.fst).Nodup := ((hperm.map Prod.fst).nodup_iff).mp hnd
  by_cases hk : k ∈ d₁.map Prod.fst
  · rcases List.mem_map.mp hk with ⟨p, hm, hfst⟩
    obtain ⟨a, b⟩ := p
    cases hfst
    rw [lookup_eq_some_of_mem hnd hm, lookup_eq_some_of_mem hnd₂ (hperm.subset hm)]
  · have hk₂ : k ∉ d₂.map Prod.fst := fun hc => hk ((hperm.map Prod.fst).mem_iff.mpr hc)
    rw [lookup_eq_none_of_not_mem hk, lookup_eq_none_of_not_mem hk₂]

/-- Sorting by `≤` identifies permuted key lists. -/
theorem sort_keys_perm_eq {l₁ l₂ : List ℕ} (h : l₁.Perm l₂) :
    List.insertionSort (· ≤ ·) l₁ = List.insertionSort (· ≤ ·) l₂ := by
  exact @List.eq_of_perm_of_sorted ℕ (· ≤ ·) inferInstance _ _
    ((List.perm_insertionSort _ l₁).trans (h.trans (List.perm_insertionSort _ l₂).symm))
    (List.sorted_insertionSort _ l₁) (List.sorted_insertionSort _ l₂)

/-- `get_results_in_order` depends only on the contents of the result map, not
on the order completions inserted them. -/
theorem get_results_in_order_perm {d₁ d₂ : List (ℕ × ChunkResult)} (hperm : d₁.Perm d₂)
    (hnd : (d₁.map Prod.fst).Nodup) :
    get_results_in_order d₁ = get_results_in_order d₂ := by
  unfold get_results_in_order
  rw [sort_keys_perm_eq (hperm.map Prod.fst)]
  exact List.filterMap_congr fun k _ => lookup_perm_eq hperm hnd k

/-- C1 counterexample: `combine_results` applied to an explicitly permuted
list is NOT what the claim says it is — it concatenates in the given order
instead of sorting by chunk id first.  `[resultA, resultB]` is the
chunk-id-sorted order, `[resultB, resultA]` a permutation of it, and the two
outputs differ. -/
theorem C1_counterexample :
    ([resultB, resultA] : List ChunkResult).Perm [resultA, resultB] ∧
    resultA.chunk_id = 0 ∧ resultB.chunk_id = 1 ∧
    combine_results [resultB, resultA] ≠ combine_results [resultA, resultB] := by
  exact ⟨by decide, by decide, by decide, by decide⟩

/-- C1 (amended): `combine_results` itself processes its argument in the
given order and is not permutation-invariant; the sorting lives in
`get_results_in_order`, which the no-argument call uses, so the combined
output is invariant under the order in which completions populated the
result map (any permutation of the map with its distinct chunk ids). -/
theorem C1_combine_on_sorted_results_perm_invariant
    (d₁ d₂ : List (ℕ × ChunkResult)) (hperm : d₁.Perm d₂)
    (hnd : (d₁.map Prod.fst).Nodup) :
    combine_results_default d₁ = combine_results_default d₂ := by
  unfold combine_results_default
  rw [get_results_in_order_perm hperm hnd]

/-- C1 witness: two insertion orders of the same two results combine to the
same output through the default (sorted) path. -/
theorem C1_witness :
    ([(1, resultB), (0, resultA)] : List (ℕ × ChunkResult)).Perm
        [(0, resultA), (1, resultB)] ∧
    (([(1, resultB), (0, resultA)] : List (ℕ × ChunkResult)).map Prod.fst).Nodup ∧
    combine_results_default [(1, resultB), (0, resultA)] =
      combine_results_default [(0, resultA), (1, resultB)] := by
  refine ⟨by decide, by decide, ?_⟩
  exact C1_combine_on_sorted_results_perm_invariant _ _ (by decide) (by decide)

/-- At a 5 Hz sample rate the `"ja"` overlap is `int(0.8 * 5) = 4` samples. -/
theorem ja_overlap_samples_5 : ja_overlap_samples 5 = 4 := by
  have h48 : calculate_overlap_duration "ja" * ((5 : ℕ) : ℚ) = 4 := by
    norm_num [calculate_overlap_duration]
  unfold ja_overlap_samples
  rw [h48]
  decide

/-- C4 counterexample: at sample rate 5 (overlap 4 samples) on the ramp
buffer with split point 6, the overlap appended to the emitted chunk's tail
is `audio[6:10]`, but the prefix seeded into the next chunk's buffer is
`audio[2:10]` — the seed also re-contains audio from before the split, so the
two are not equal (the appended tail is only the seed's suffix). -/
theorem C4_counterexample :
    (create_chunk_with_overlap 5 c4_audio 0 6).1.drop 6 = [6, 7, 8, 9] ∧
    (create_chunk_with_overlap 5 c4_audio 0 6).2 = some [2, 3, 4, 5, 6, 7, 8, 9] ∧
    (create_chunk_with_overlap 5 c4_audio 0 6).2 ≠
      some ((create_chunk_with_overlap 5 c4_audio 0 6).1.drop 6) := by
  have h48 : calculate_overlap_duration "ja" * ((5 : ℕ) : ℚ) = 4 := by
    norm_num [calculate_overlap_duration]
  have hov : pyInt (calculate_overlap_duration "ja" * ((5 : ℕ) : ℚ)) = 4 := by
    rw [h48]
    decide
  refine ⟨?_, ?_, ?_⟩ <;>
    · simp only [create_chunk_with_overlap, hov, c4_audio, pySlice]
      decide

/-- C4 (amended): for a non-final chunk (enough trailing audio past the
split), the emitted chunk is `audio[0, split+ov)` and the seed for the next
chunk is `audio[split-ov, split+ov)`; the overlap appended to the chunk's
tail equals the suffix of that seed past its first `min(split, ov)` samples
(not the whole seed).  When insufficient trailing audio remains, the chunk is
`audio[0, split)` and no overlap is carried. -/
theorem C4_appended_overlap_is_seed_suffix (sample_rate : ℕ) (audio : List ℚ)
    (split : ℕ) :
    (audio.length < split + ja_overlap_samples sample_rate →
      create_chunk_with_overlap sample_rate audio 0 split = (audio.take split, none)) ∧
    (split + ja_overlap_samples sample_rate ≤ audio.length →
      create_chunk_with_overlap sample_rate audio 0 split =
        (audio.take (split + ja_overlap_samples sample_rate),
          some (pySlice audio (split - ja_overlap_samples sample_rate)
            (split + ja_overlap_samples sample_rate))) ∧
      (audio.take (split + ja_overlap_samples sample_rate)).drop split =
        (pySlice audio (split - ja_overlap_samples sample_rate)
            (split + ja_overlap_samples sample_rate)).drop
          (min split (ja_overlap_samples sample_rate))) := by
  have hos : pyInt (calculate_overlap_duration "ja" * (sample_rate : ℚ)) =
      ja_overlap_samples sample_rate := rfl
  constructor
  · intro h
    unfold create_chunk_with_overlap
    dsimp only
    rw [hos, if_neg (by omega)]
    simp [pySlice]
  · intro h
    refine ⟨?_, ?_⟩
    · unfold create_chunk_with_overlap
      dsimp only
      rw [hos, if_pos (by omega)]
      simp [pySlice, Nat.zero_max]
    · have e1 : (audio.take (split + ja_overlap_samples sample_rate)).drop split =
          (audio.drop split).take (ja_overlap_samples sample_rate) := by
        rw [List.drop_take]
        congr 1
        omega
      have e2 : (pySlice audio (split - ja_overlap_samples sample_rate)
            (split + ja_overlap_samples sample_rate)).drop
            (min split (ja_overlap_samples sample_rate)) =
          (audio.drop split).take (ja_overlap_samples sample_rate) := by
        unfold pySlice
        rw [List.drop_take, List.drop_drop]
        congr 1
        · omega
        · congr 1
          omega
      rw [e1, e2]

/-- C4 witness: both regimes at sample rate 5 on the ramp buffer — split 6
carries the overlap, split 20 (too close to the end) carries none. -/
theorem C4_witness :
    6 + ja_overlap_samples 5 ≤ c4_audio.length ∧
    create_chunk_with_overlap 5 c4_audio 0 6 =
      (c4_audio.take (6 + ja_overlap_samples 5),
        some (pySlice c4_audio (6 - ja_overlap_samples 5) (6 + ja_overlap_samples 5))) ∧
    c4_audio.length < 20 + ja_overlap_samples 5 ∧
    create_chunk_with_overlap 5 c4_audio 0 20 = (c4_audio.take 20, none) := by
  have h1 : 6 + ja_overlap_samples 5 ≤ c4_audio.length := by
    simp [ja_overlap_samples_5, c4_audio]
  have h2 : c4_audio.length < 20 + ja_overlap_samples 5 := by
    simp [ja_overlap_samples_5, c4_audio]
  exact ⟨h1, ((C4_appended_overlap_is_seed_suffix 5 c4_audio 6).2 h1).1, h2,
    (C4_appended_overlap_is_seed_suffix 5 c4_audio 20).1 h2⟩

/-- C7: for every recorder state and block-submission time, the boundary
decision equals the claim's rule chain — never split under 60s; force split
at 120s; from 90s split when the trailing `1.5s + language_overlap` window of
the ring buffer is below the 0.01 RMS threshold; failing that, from 110s
split when the trailing 0.5s window is below threshold; otherwise
continue. -/
theorem C7_boundary_policy (rec : RealtimeRecorder) (current_time : ℚ) :
    check_chunk_boundary rec current_time = boundary_spec rec current_time := by
  unfold check_chunk_boundary boundary_spec
  dsimp only
  split_ifs with h1 h2 h3 h4 <;> simp_all [not_lt, not_le]
